import Mathlib

/-!
Verification model of the extcap-rs crate (Wireshark extcap helper library).

This file shallowly embeds the parts of the source relevant to the frozen
claims:

* `src/control_pipe.rs` — `ControlCmd`, `ControlMsg` and the u8 conversions;
* `src/control_pipe_runtime.rs` — `ControlMsgCodec::{encode, decode}` and the
  `ControlPipeRuntime` start/stop lifecycle;
* `src/arg.rs`, `src/iface.rs`, `src/control.rs` — the argument / interface /
  control registries and their descriptor-line rendering;
* `src/lib.rs` — CLI-flag driven step derivation (`run_till_capture`),
  argument registration (`config_arg`, `add_interface`) and the
  reload-option flow.

Byte buffers are `List Nat` (each element a byte value), machine integers are
`Nat` with explicit `% 256` / `% 2^24` where the source truncates, stdout is
an explicit `List String` of emitted descriptor lines, and the effectful
runtime lifecycle is a function from the runtime state to a behaviour tag.
-/

set_option autoImplicit false

namespace ExtcapRs

/-! ## Control commands and messages (`src/control_pipe.rs`) -/

/-- Interface toolbar Control commands, mirroring `enum ControlCmd`. -/
inductive ControlCmd where
  | initialized
  | set
  | add
  | remove
  | enable
  | disable
  | statusbarMessage
  | informationMessage
  | warningMessage
  | errorMessage
  | unknown (v : Nat)
  deriving Repr, DecidableEq

/-- `impl From<u8> for ControlCmd` (`control_pipe.rs` lines 35–51): codes 0–9
map to the named commands, everything else to `Unknown(v)`. -/
def cmdFromU8 (v : Nat) : ControlCmd :=
  if v = 0 then .initialized
  else if v = 1 then .set
  else if v = 2 then .add
  else if v = 3 then .remove
  else if v = 4 then .enable
  else if v = 5 then .disable
  else if v = 6 then .statusbarMessage
  else if v = 7 then .informationMessage
  else if v = 8 then .warningMessage
  else if v = 9 then .errorMessage
  else .unknown v

/-- `impl From<&ControlCmd> for u8` (`control_pipe.rs` lines 53–69). -/
def cmdToU8 : ControlCmd → Nat
  | .initialized => 0
  | .set => 1
  | .add => 2
  | .remove => 3
  | .enable => 4
  | .disable => 5
  | .statusbarMessage => 6
  | .informationMessage => 7
  | .warningMessage => 8
  | .errorMessage => 9
  | .unknown v => v

/-- A command is well formed when an `Unknown` code is at least 10 (codes
below 10 are represented by the named constructors in the source type). -/
def ControlCmd.wf : ControlCmd → Prop
  | .unknown v => 10 ≤ v
  | _ => True

/-- Control protocol message, mirroring `struct ControlMsg`:
control number (a u8), command, opaque payload bytes. -/
structure ControlMsg where
  ctrlNum : Nat
  command : ControlCmd
  data : List Nat
  deriving Repr, DecidableEq

/-! ## The control-pipe codec (`src/control_pipe_runtime.rs` lines 140–188) -/

/-- The three low bytes of `n`, big-endian: what `BufMut::put_uint(n, 3)`
appends (it writes the low 3 bytes of the `u64`, silently truncating). -/
def uint24be (n : Nat) : List Nat :=
  [n / 65536 % 256, n / 256 % 256, n % 256]

/-- Result of one `Decoder::decode` call: `Ok(None)` (need more data, buffer
untouched), `Err(io::Error)` (fatal framing error), or `Ok(Some(msg))`
together with the bytes left unconsumed in the buffer. -/
inductive DecodeResult where
  | needMore
  | framingError (msg : String)
  | msg (m : ControlMsg) (rest : List Nat)
  deriving Repr, DecidableEq

/-- `ControlMsgCodec::decode` (`control_pipe_runtime.rs` lines 146–172).
The four-cons pattern is the `buf.len() < 4` guard; `msgLen` is the 3-byte
big-endian length read by `hdr.get_uint(3)`; the check
`rest.length < msgLen` is `buf.len() < 4 + msg_len` (the header is the four
matched bytes).  Only the `.msg` branch consumes bytes (`split_to`); the
inner wildcard branch is unreachable because there `2 ≤ msgLen ≤ rest.length`. -/
def decode (buf : List Nat) : DecodeResult :=
  match buf with
  | b0 :: b1 :: b2 :: b3 :: rest =>
    if b0 = 84 then
      let msgLen := b1 * 65536 + b2 * 256 + b3
      if msgLen < 2 then
        .framingError "Message Length < 2"
      else if rest.length < msgLen then
        .needMore
      else
        match rest with
        | cnum :: cmd :: pay =>
          .msg ⟨cnum, cmdFromU8 cmd, pay.take (msgLen - 2)⟩ (pay.drop (msgLen - 2))
        | _ => .needMore
    else
      .framingError "Sync Pipe Indication != \x27T\x27"
  | _ => .needMore

/-- `ControlMsgCodec::encode` (`control_pipe_runtime.rs` lines 178–187):
sync byte `'T'` (84), 3-byte big-endian length `2 + data.len()`, control
number, command code, payload. -/
def encode (m : ControlMsg) : List Nat :=
  84 :: uint24be (2 + m.data.length) ++ m.ctrlNum :: cmdToU8 m.command :: m.data

/-! ### Codec lemmas -/

theorem uint24_reassemble (n : Nat) (h : n < 2 ^ 24) :
    n / 65536 % 256 * 65536 + n / 256 % 256 * 256 + n % 256 = n := by
  omega

theorem cmdFromU8_cmdToU8 (c : ControlCmd) (h : c.wf) : cmdFromU8 (cmdToU8 c) = c := by
  cases c with
  | unknown v =>
    have hv : 10 ≤ v := h
    simp only [cmdToU8, cmdFromU8]
    repeat rw [if_neg (by omega)]
  | initialized => rfl
  | set => rfl
  | add => rfl
  | remove => rfl
  | enable => rfl
  | disable => rfl
  | statusbarMessage => rfl
  | informationMessage => rfl
  | warningMessage => rfl
  | errorMessage => rfl

theorem decode_short (buf : List Nat) (h : buf.length < 4) : decode buf = .needMore := by
  match buf with
  | [] => rfl
  | [_] => rfl
  | [_, _] => rfl
  | [_, _, _] => rfl
  | _ :: _ :: _ :: _ :: _ => simp only [List.length_cons] at h; omega

/-- Reduction of `decode` on a buffer with at least 4 bytes, with the
header `let` expanded. -/
theorem decode_cons (b0 b1 b2 b3 : Nat) (rest : List Nat) :
    decode (b0 :: b1 :: b2 :: b3 :: rest) =
      (if b0 = 84 then
        if b1 * 65536 + b2 * 256 + b3 < 2 then
          .framingError "Message Length < 2"
        else if rest.length < b1 * 65536 + b2 * 256 + b3 then
          .needMore
        else
          match rest with
          | cnum :: cmd :: pay =>
            .msg ⟨cnum, cmdFromU8 cmd, pay.take (b1 * 65536 + b2 * 256 + b3 - 2)⟩
              (pay.drop (b1 * 65536 + b2 * 256 + b3 - 2))
          | _ => .needMore
      else .framingError "Sync Pipe Indication != \x27T\x27") := rfl

/-- Unfolding of `encode` into an explicit cons list. -/
theorem encode_cons (cn : Nat) (cmd : ControlCmd) (data : List Nat) :
    encode ⟨cn, cmd, data⟩ =
      84 :: (2 + data.length) / 65536 % 256 :: (2 + data.length) / 256 % 256 ::
        (2 + data.length) % 256 :: cn :: cmdToU8 cmd :: data := rfl

/-- C1 amended round-trip law: for payloads of at most `2^24 - 3` bytes and a
well-formed command, decoding the encoding returns exactly the original
message and consumes the whole buffer. -/
theorem decode_encode_roundtrip (m : ControlMsg)
    (hlen : m.data.length ≤ 2 ^ 24 - 3) (hcmd : m.command.wf) :
    decode (encode m) = .msg m [] := by
  obtain ⟨cn, cmd, data⟩ := m
  have hlen' : data.length ≤ 2 ^ 24 - 3 := hlen
  have hL : 2 + data.length < 2 ^ 24 := by omega
  rw [encode_cons, decode_cons, if_pos rfl, uint24_reassemble _ hL,
    if_neg (by omega), if_neg (by simp only [List.length_cons]; omega)]
  have ht : 2 + data.length - 2 = data.length := by omega
  simp only [ht, List.take_length, List.drop_length, cmdFromU8_cmdToU8 cmd hcmd]

/-- The message used to refute C1 as stated: its payload has exactly
`2^24 - 2` bytes, the largest size the claim admits. -/
def bigMsg : ControlMsg :=
  ⟨0, .initialized, List.replicate (2 ^ 24 - 2) 0⟩

/-- Any message whose payload has exactly `2^24 - 2` bytes fails to
round-trip: the declared length `2^24` is truncated to 0 by the 3-byte
length field, which the decoder then rejects as too short. -/
theorem encode_len_overflow (cn : Nat) (c : ControlCmd) (data : List Nat)
    (h : data.length = 2 ^ 24 - 2) :
    decode (encode ⟨cn, c, data⟩) = .framingError "Message Length < 2" := by
  rw [encode_cons, h]
  have e1 : (2 + (2 ^ 24 - 2)) / 65536 % 256 = 0 := by norm_num
  have e2 : (2 + (2 ^ 24 - 2)) / 256 % 256 = 0 := by norm_num
  have e3 : (2 + (2 ^ 24 - 2)) % 256 = 0 := by norm_num
  rw [e1, e2, e3, decode_cons, if_pos rfl, if_pos (by norm_num)]

/-- C1 counterexample: a message with a `2^24 - 2`-byte payload (allowed by
the claim) does not round-trip — the declared length `2 + (2^24 - 2) = 2^24`
is truncated to 0 by the 3-byte length field, so decoding the encoding is a
fatal framing error instead of the original message. -/
theorem C1_counterexample :
    bigMsg.data.length ≤ 2 ^ 24 - 2 ∧ bigMsg.command.wf ∧ bigMsg.ctrlNum < 256 ∧
      decode (encode bigMsg) = .framingError "Message Length < 2" := by
  refine ⟨?_, trivial, ?_, ?_⟩
  · show (List.replicate (2 ^ 24 - 2) (0 : Nat)).length ≤ 2 ^ 24 - 2
    rw [List.length_replicate]
  · show (0 : Nat) < 256
    norm_num
  · exact encode_len_overflow 0 .initialized (List.replicate (2 ^ 24 - 2) 0)
      (by rw [List.length_replicate])

/-- C1 (amended): encode-then-decode is the identity for every control
message whose payload is at most `2^24 - 3` bytes and whose command is one of
the ten named commands or `Unknown v` with `v ≥ 10`. -/
theorem C1_roundtrip (m : ControlMsg)
    (hlen : m.data.length ≤ 2 ^ 24 - 3) (hcmd : m.command.wf) :
    decode (encode m) = .msg m [] :=
  decode_encode_roundtrip m hlen hcmd

/-- Witness for C1: a concrete message round-trips. -/
theorem C1_roundtrip_witness :
    decode (encode ⟨3, .unknown 11, [1, 2, 3]⟩) = .msg ⟨3, .unknown 11, [1, 2, 3]⟩ [] :=
  C1_roundtrip ⟨3, .unknown 11, [1, 2, 3]⟩ (by norm_num) (by norm_num [ControlCmd.wf])

/-- C2 counterexample: the buffer `[0]` has a first byte that is not `'T'`,
yet the decoder answers "need more data" rather than a framing error — with
fewer than 4 bytes buffered the sync byte is not even examined. -/
theorem C2_counterexample : (0 : Nat) ≠ 84 ∧ decode [0] = .needMore :=
  ⟨by decide, rfl⟩

/-- C2 (amended): for every buffer of at least 4 bytes whose first byte is
not `'T'` (84), decoding returns the fatal sync-byte framing error,
regardless of the remaining buffer content. -/
theorem C2_bad_sync (b0 b1 b2 b3 : Nat) (rest : List Nat) (h : b0 ≠ 84) :
    decode (b0 :: b1 :: b2 :: b3 :: rest) =
      .framingError "Sync Pipe Indication != \x27T\x27" := by
  simp only [decode, if_neg h]

/-- Witness for C2: a concrete 4-byte buffer with a bad sync byte errors. -/
theorem C2_bad_sync_witness :
    decode [65, 0, 0, 0] = .framingError "Sync Pipe Indication != \x27T\x27" :=
  C2_bad_sync 65 0 0 0 [] (by decide)

/-- C4: for every buffer of at least 4 bytes starting with `'T'` whose 3-byte
big-endian declared length is below 2, decoding returns the fatal
message-length framing error. -/
theorem C4_short_length (b1 b2 b3 : Nat) (rest : List Nat)
    (h : b1 * 65536 + b2 * 256 + b3 < 2) :
    decode (84 :: b1 :: b2 :: b3 :: rest) = .framingError "Message Length < 2" := by
  rw [decode_cons, if_pos rfl, if_pos h]

/-- Witness for C4: declared length 1 (and also 0) is rejected. -/
theorem C4_short_length_witness :
    decode [84, 0, 0, 1, 9, 9, 9] = .framingError "Message Length < 2" :=
  C4_short_length 0 0 1 [9, 9, 9] (by decide)

/-- C3: the decoder asks for more data (consuming nothing — only the `.msg`
branch of `decode` splits the buffer) whenever (a) fewer than 4 bytes are
buffered, or (b) a valid header declares length `L ≥ 2` but fewer than
`4 + L` bytes are buffered; and feeding a valid frame byte by byte yields
nothing on every proper prefix and exactly the original message once the
frame is complete. -/
theorem C3_incremental (buf : List Nat) (m : ControlMsg) :
    (buf.length < 4 → decode buf = .needMore) ∧
    (∀ b1 b2 b3 rest, buf = 84 :: b1 :: b2 :: b3 :: rest →
      2 ≤ b1 * 65536 + b2 * 256 + b3 →
      rest.length < b1 * 65536 + b2 * 256 + b3 →
      decode buf = .needMore) ∧
    (m.data.length ≤ 2 ^ 24 - 3 → m.command.wf →
      (∀ k, k < (encode m).length → decode ((encode m).take k) = .needMore) ∧
      decode (encode m) = .msg m []) := by
  refine ⟨decode_short buf, ?_, ?_⟩
  · rintro b1 b2 b3 rest rfl h2 hlt
    rw [decode_cons, if_pos rfl, if_neg (by omega), if_pos hlt]
  · intro hlen hcmd
    refine ⟨?_, decode_encode_roundtrip m hlen hcmd⟩
    intro k hk
    obtain ⟨cn, cmd, data⟩ := m
    have hlen' : data.length ≤ 2 ^ 24 - 3 := hlen
    have hL : 2 + data.length < 2 ^ 24 := by omega
    rw [encode_cons] at hk ⊢
    simp only [List.length_cons] at hk
    rcases Nat.lt_or_ge k 4 with h4 | h4
    · exact decode_short _ (by rw [List.length_take]; omega)
    · obtain ⟨j, rfl⟩ : ∃ j, k = j + 4 := ⟨k - 4, by omega⟩
      rw [show j + 4 = (((j + 1) + 1) + 1) + 1 from rfl]
      simp only [List.take_succ_cons]
      rw [decode_cons, if_pos rfl, uint24_reassemble _ hL, if_neg (by omega), if_pos ?_]
      simp only [List.length_take, List.length_cons]
      omega

/-- Witness for C3: a 1-byte buffer waits; a headered but incomplete buffer
waits; a complete concrete frame decodes to exactly one message. -/
theorem C3_incremental_witness :
    decode [84] = .needMore ∧
    decode [84, 0, 0, 5, 1, 2] = .needMore ∧
    decode (encode ⟨1, .set, [7]⟩) = .msg ⟨1, .set, [7]⟩ [] :=
  ⟨(C3_incremental [84] ⟨1, .set, [7]⟩).1 (by decide),
   (C3_incremental [84, 0, 0, 5, 1, 2] ⟨1, .set, [7]⟩).2.1 0 0 5 [1, 2] rfl
     (by decide) (by decide),
   ((C3_incremental [] ⟨1, .set, [7]⟩).2.2 (by norm_num) trivial).2⟩

/-! ## Registries and descriptor rendering (`src/arg.rs`, `src/iface.rs`,
`src/control.rs`).  `print!`/`println!` output is modelled as explicit
`String`s (one per emitted line); `{`/`}` are written `\x7b`/`\x7d`. -/

/-- The `usize::MAX` placeholder the source stores before an ordinal is
assigned (`usize::max_value()`). -/
def usizeMax : Nat := 2 ^ 64 - 1

/-- `print_opt_value` (`lib.rs` lines 87–91): render `{name=value}` when the
optional value is set, nothing when unset. -/
def printOptValue {α : Type} [ToString α] (name : String) (value : Option α) : String :=
  match value with
  | some val => "\x7b" ++ name ++ "=" ++ toString val ++ "\x7d"
  | none => ""

/-- `enum IfArgType` (`arg.rs` lines 5–34). -/
inductive IfArgType where
  | none
  | integer
  | unsigned
  | long
  | double
  | string
  | password
  | boolean
  | boolflag
  | fileselect
  | selector
  | radio
  | multicheck
  | timestamp
  deriving Repr, DecidableEq

/-- `IfArgType::type_str` (`arg.rs` lines 43–60). -/
def IfArgType.typeStr : IfArgType → String
  | .none => "none"
  | .integer => "integer"
  | .unsigned => "unsigned"
  | .long => "long"
  | .double => "double"
  | .string => "string"
  | .password => "password"
  | .boolean => "boolean"
  | .boolflag => "boolflag"
  | .fileselect => "fileselect"
  | .selector => "selector"
  | .radio => "radio"
  | .multicheck => "multicheck"
  | .timestamp => "timestamp"

/-- `struct IfArgVal` (`arg.rs` lines 270–276); field defaults mirror
`#[derive(Default)]`. -/
structure IfArgVal where
  arg : Nat := 0
  value : String := ""
  display : Option String := none
  default : Option Bool := none
  deriving Repr, DecidableEq

/-- `IfArgVal::new` (`arg.rs` lines 279–285). -/
def IfArgVal.new (value : String) : IfArgVal :=
  { arg := usizeMax, value := value }

/-- `IfArgVal::set_arg` (`arg.rs` lines 288–290). -/
def IfArgVal.setArg (v : IfArgVal) (arg : Nat) : IfArgVal :=
  { v with arg := arg }

/-- `IfArgVal::print_value` (`arg.rs` lines 304–313): the mandatory display
field falls back to the value itself when unset. -/
def IfArgVal.printValue (v : IfArgVal) : String :=
  "value \x7barg=" ++ toString v.arg ++ "\x7d\x7bvalue=" ++ v.value ++
    "\x7d\x7bdisplay=" ++ (v.display.getD v.value) ++ "\x7d" ++
    printOptValue "default" v.default

/-- `struct IfArg` (`arg.rs` lines 64–79); field defaults mirror
`#[derive(Default)]`. -/
structure IfArg where
  number : Nat := 0
  name : String := ""
  display : Option String := none
  atype : IfArgType := .none
  default : Option String := none
  range : Option String := none
  validation : Option String := none
  mustexist : Option Bool := none
  reload : Option Bool := none
  placeholder : Option String := none
  tooltip : Option String := none
  group : Option String := none
  vals : List IfArgVal := []
  deriving Repr, DecidableEq

/-- `IfArg::new` (`arg.rs` lines 82–89). -/
def IfArg.mk0 (atype : IfArgType) (name : String) : IfArg :=
  { number := usizeMax, name := name, atype := atype }

/-- `IfArg::new_string` and its siblings only vary the type tag. -/
def IfArg.newString (name : String) : IfArg := IfArg.mk0 .string name

/-- `IfArg::set_number` (`arg.rs` lines 91–96): store the ordinal and push it
into every value. -/
def IfArg.setNumber (a : IfArg) (number : Nat) : IfArg :=
  { a with number := number, vals := a.vals.map (fun v => v.setArg number) }

/-- `IfArg::has_reload` (`arg.rs` lines 211–213). -/
def IfArg.hasReload (a : IfArg) : Bool :=
  a.reload.getD false

/-- `IfArg::reload_option` (`arg.rs` lines 238–245): clear the values and
extend with the new ones, stamping each with this argument's ordinal
(clear-then-extend equals replacing by the stamped list). -/
def IfArg.reloadOption (a : IfArg) (vals : List IfArgVal) : IfArg :=
  { a with vals := vals.map (fun v => v.setArg a.number) }

/-- `IfArg::print_arg` (`arg.rs` lines 247–266): one descriptor line for the
argument (display falls back to the name), then one line per value. -/
def IfArg.printArg (a : IfArg) : List String :=
  ("arg \x7bnumber=" ++ toString a.number ++ "\x7d\x7bcall=--" ++ a.name ++
      "\x7d\x7bdisplay=" ++ (a.display.getD a.name) ++ "\x7d\x7btype=" ++
      a.atype.typeStr ++ "\x7d" ++
      printOptValue "default" a.default ++ printOptValue "range" a.range ++
      printOptValue "validation" a.validation ++
      printOptValue "mustexist" a.mustexist ++ printOptValue "reload" a.reload ++
      printOptValue "placeholder" a.placeholder ++
      printOptValue "tooltip" a.tooltip ++ printOptValue "group" a.group)
    :: a.vals.map IfArgVal.printValue

/-- `struct IFace` (`iface.rs` lines 7–16). -/
structure IFace where
  interface : String := ""
  descr : Option String := none
  dlt : Nat := 0
  dltname : Option String := none
  dltdescr : Option String := none
  args : List IfArg := []
  debug : Bool := false
  deriving Repr, DecidableEq

/-- `IFace::new` (`iface.rs` lines 20–26); `DataLink::USER0` is DLT 147. -/
def IFace.new (interface : String) : IFace :=
  { interface := interface, dlt := 147 }

/-- `IFace::add_arg` (`iface.rs` lines 58–61): assign the next ordinal
(the current length of `args`) and append — no duplicate-name check. -/
def IFace.addArg (ifc : IFace) (arg : IfArg) : IFace :=
  { ifc with args := ifc.args ++ [arg.setNumber ifc.args.length] }

/-- `IFace::get_arg_idx` (`iface.rs` lines 67–69). -/
def IFace.getArgIdx (ifc : IFace) (arg : String) : Option Nat :=
  ifc.args.findIdx? (fun x => x.name == arg)

/-- `IFace::has_reloadable_arg` (`iface.rs` lines 79–81). -/
def IFace.hasReloadableArg (ifc : IFace) : Bool :=
  ifc.args.any IfArg.hasReload

/-- `IFace::print_iface` (`iface.rs` lines 108–112). -/
def IFace.printIface (ifc : IFace) : String :=
  "interface \x7bvalue=" ++ ifc.interface ++ "\x7d" ++
    printOptValue "display" ifc.descr

/-- `IFace::print_dlt_list` (`iface.rs` lines 114–122): the mandatory name
field falls back to the interface name when no DLT name is set. -/
def IFace.printDltList (ifc : IFace) : String :=
  "dlt \x7bnumber=" ++ toString ifc.dlt ++ "\x7d\x7bname=" ++
    (ifc.dltname.getD ifc.interface) ++ "\x7d" ++
    printOptValue "display" ifc.dltdescr

/-- `IFace::print_arg_list` (`iface.rs` lines 124–126): every argument's
lines, in registration order. -/
def IFace.printArgList (ifc : IFace) : List String :=
  (ifc.args.map IfArg.printArg).flatten

/-- `enum ButtonRole` (`control.rs` lines 4–13). -/
inductive ButtonRole where
  | control
  | logger
  | help
  | restore
  deriving Repr, DecidableEq

/-- `ButtonRole::role_str` (`control.rs` lines 16–23). -/
def ButtonRole.roleStr : ButtonRole → String
  | .control => "control"
  | .logger => "logger"
  | .help => "help"
  | .restore => "restore"

/-- `enum ControlType` (`control.rs` lines 27–38). -/
inductive ControlType where
  | none
  | boolean
  | button (role : ButtonRole)
  | selector
  | string
  deriving Repr, DecidableEq

/-- `ControlType::type_str` (`control.rs` lines 47–55). -/
def ControlType.typeStr : ControlType → String
  | .none => "none"
  | .boolean => "boolean"
  | .button _ => "button"
  | .selector => "selector"
  | .string => "string"

/-- `struct ControlVal` (`control.rs` lines 171–177). -/
structure ControlVal where
  control : Nat := 0
  value : String := ""
  display : Option String := none
  default : Option Bool := none
  deriving Repr, DecidableEq

/-- `ControlVal::print_value` (`control.rs` lines 205–214): the mandatory
display field falls back to the value itself when unset. -/
def ControlVal.printValue (v : ControlVal) : String :=
  "value \x7bcontrol=" ++ toString v.control ++ "\x7d\x7bvalue=" ++ v.value ++
    "\x7d\x7bdisplay=" ++ (v.display.getD v.value) ++ "\x7d" ++
    printOptValue "default" v.default

/-- `struct Control` (`control.rs` lines 59–70). -/
structure Control where
  number : Nat := 0
  ctype : ControlType := .none
  display : Option String := none
  default : Option String := none
  range : Option String := none
  validation : Option String := none
  tooltip : Option String := none
  placeholder : Option String := none
  vals : List ControlVal := []
  deriving Repr, DecidableEq

/-- `Control::print_control` (`control.rs` lines 149–167): one line for the
control (with the role field only for buttons), then one line per value. -/
def Control.printControl (c : Control) : List String :=
  ("control \x7bnumber=" ++ toString c.number ++ "\x7d\x7btype=" ++
      c.ctype.typeStr ++ "\x7d" ++
      (match c.ctype with
        | .button role => "\x7brole=" ++ role.roleStr ++ "\x7d"
        | _ => "") ++
      printOptValue "display" c.display ++ printOptValue "default" c.default ++
      printOptValue "range" c.range ++ printOptValue "validation" c.validation ++
      printOptValue "tooltip" c.tooltip ++ printOptValue "placeholder" c.placeholder)
    :: c.vals.map ControlVal.printValue

/-! ## Protocol state machine (`src/lib.rs`).

Flag parsing itself is done by the external `clap` crate and is not part of
this repository; the model starts from the parse result: which step flags are
present and the values of the value-taking flags.  Listener callbacks with
pure effects on the model (`reload_option`) are passed as functions;
`init_log` / `update_interfaces` / logging are side effects outside the
model. -/

/-- The parse result `ArgMatches` restricted to the flags `run_till_capture`
inspects: `is_present` on the boolean flags, `value_of` on the value-taking
ones (`is_present` of a value-taking flag is `isSome`). -/
structure ParsedFlags where
  extcapInterfaces : Bool := false
  extcapDlts : Bool := false
  extcapConfig : Bool := false
  capture : Bool := false
  extcapInterface : Option String := none
  extcapReloadOption : Option String := none
  extcapControlIn : Option String := none
  extcapControlOut : Option String := none
  deriving Repr, DecidableEq

/-- `enum ExtcapStep` (`lib.rs` lines 180–198). -/
inductive ExtcapStep where
  | none
  | queryIfaces
  | queryDlts
  | configIface (reload : Bool)
  | capture (ctrlPipe : Bool)
  deriving Repr, DecidableEq

/-- Step derivation (`lib.rs` lines 514–527): the `if`/`else if` chain gives
the fixed precedence interfaces > dlts > config > capture, and the capture
step records whether both control pipes were supplied. -/
def deriveStep (m : ParsedFlags) : ExtcapStep :=
  if m.extcapInterfaces then .queryIfaces
  else if m.extcapDlts then .queryDlts
  else if m.extcapConfig then .configIface m.extcapReloadOption.isSome
  else if m.capture then .capture (m.extcapControlIn.isSome && m.extcapControlOut.isSome)
  else .none

/-- `struct Extcap` (`lib.rs` lines 218–231).  The `clap::App` is modelled by
the list of user-declared CLI flag names added to it (`appExtraFlags`, in
declaration order; each entry stands for one `Arg::with_name(name).long(name)`
declaration — help text and `takes_value` play no role in any claim);
`appArgs` is the `HashSet<String>` guarding idempotent registration. -/
structure Extcap where
  name : String := ""
  version : Option String := none
  helppage : Option String := none
  appExtraFlags : List String := []
  appArgs : List String := []
  interfaces : List IFace := []
  reloadOpt : Bool := false
  ifcDebug : Bool := false
  control : Bool := false
  controls : List Control := []
  deriving Repr, DecidableEq

/-- `Extcap::new` (`lib.rs` lines 235–303): the base flags live in the
`clap::App`; no user flags are declared yet. -/
def Extcap.new (name : String) : Extcap :=
  { name := name }

/-- `Extcap::get_if_idx` (`lib.rs` lines 377–381). -/
def Extcap.getIfIdx (ex : Extcap) (ifc : String) : Option Nat :=
  ex.interfaces.findIdx? (fun x => x.interface == ifc)

/-- `Extcap::config_arg` (`lib.rs` lines 391–408): a no-op when a CLI flag of
that name was already added, otherwise declare `--name` and remember it. -/
def Extcap.configArg (ex : Extcap) (ifa : IfArg) : Extcap :=
  if ex.appArgs.contains ifa.name then ex
  else
    { ex with
      appExtraFlags := ex.appExtraFlags ++ [ifa.name]
      appArgs := ex.appArgs ++ [ifa.name] }

/-- `Extcap::config_reload_opt` (`lib.rs` lines 410–425). -/
def Extcap.configReloadOpt (ex : Extcap) : Extcap :=
  if ex.reloadOpt then ex
  else
    { ex with
      reloadOpt := true
      appExtraFlags := ex.appExtraFlags ++ ["extcap-reload-option"]
      appArgs := ex.appArgs ++ ["extcap-reload-option"] }

/-- `Extcap::config_debug` (`lib.rs` lines 452–471). -/
def Extcap.configDebug (ex : Extcap) : Extcap :=
  if ex.ifcDebug then ex
  else
    { ex with
      ifcDebug := true
      appExtraFlags := ex.appExtraFlags ++ ["debug", "debug-file"]
      appArgs := ex.appArgs ++ ["debug", "debug-file"] }

/-- `Extcap::add_interface` (`lib.rs` lines 364–375): register the shared
reload/debug flags on demand, declare one CLI flag per argument (idempotent
by name), then store the interface. -/
def Extcap.addInterface (ex : Extcap) (ifc : IFace) : Extcap :=
  let ex1 := if ifc.hasReloadableArg && !ex.reloadOpt then ex.configReloadOpt else ex
  let ex2 := if ifc.debug && !ex1.ifcDebug then ex1.configDebug else ex1
  let ex3 := ifc.args.foldl Extcap.configArg ex2
  { ex3 with interfaces := ex3.interfaces ++ [ifc] }

/-- `Extcap::print_version` (`lib.rs` lines 482–489). -/
def Extcap.printVersion (ex : Extcap) : String :=
  "extcap \x7bversion=" ++ (ex.version.getD "unknown") ++ "\x7d" ++
    printOptValue "help" ex.helppage

/-- The errors `run_till_capture` can produce after a successful flag parse
(`error.rs`): `MissingInterface`, `InvalidInterface`, `UnknownStepRequested`. -/
inductive XErr where
  | missingInterface
  | invalidInterface (interface : String)
  | unknownStep
  deriving Repr, DecidableEq

/-- `enum TillCaptureOutcome` (`lib.rs` lines 209–212). -/
inductive TillCaptureOutcome where
  | finish
  | capture (ifidx : Nat)
  deriving Repr, DecidableEq

/-- `Extcap::reload_option` (`lib.rs` lines 605–636): look up the argument on
the selected interface — if absent, log and do nothing; otherwise call the
listener's reload callback, splice a returned replacement value list into the
argument (stamping each value with the argument's ordinal), and print only
that one argument's descriptor lines.  Returns the (possibly updated)
interface list and the emitted lines. -/
def reloadOptionStep (ex : Extcap) (cb : IFace → IfArg → Option (List IfArgVal))
    (ifidx : Nat) (arg : String) : List IFace × List String :=
  let ifc := ex.interfaces.getD ifidx {}
  match ifc.getArgIdx arg with
  | none => (ex.interfaces, [])
  | some aidx =>
    let a := ifc.args.getD aidx {}
    let ifaces :=
      match cb ifc a with
      | some nargs =>
        ex.interfaces.set ifidx { ifc with args := ifc.args.set aidx (a.reloadOption nargs) }
      | none => ex.interfaces
    let ifcNew := ifaces.getD ifidx {}
    (ifaces, (ifcNew.args.getD aidx {}).printArg)

/-- `Extcap::run_till_capture` (`lib.rs` lines 509–603) after a successful
flag parse: derive the step; for `QueryIfaces` print version, interfaces and
controls and finish; otherwise resolve the selected interface
(`MissingInterface` / `InvalidInterface` on failure), then dispatch on the
step.  Returns the final state, the emitted descriptor lines and the
outcome.  The `init_log` / `update_interfaces` listener calls and all `log`
output are effects outside the model. -/
def runTillCapture (ex : Extcap) (cb : IFace → IfArg → Option (List IfArgVal))
    (m : ParsedFlags) : Extcap × List String × Except XErr TillCaptureOutcome :=
  let step := deriveStep m
  match step with
  | .queryIfaces =>
    (ex,
      ex.printVersion :: ex.interfaces.map IFace.printIface ++
        (ex.controls.map Control.printControl).flatten,
      .ok .finish)
  | _ =>
    match m.extcapInterface with
    | none => (ex, [], .error .missingInterface)
    | some ifnm =>
      match ex.getIfIdx ifnm with
      | none => (ex, [], .error (.invalidInterface ifnm))
      | some ifidx =>
        match step with
        | .queryDlts => (ex, [(ex.interfaces.getD ifidx {}).printDltList], .ok .finish)
        | .configIface _ =>
          match m.extcapReloadOption with
          | some arg =>
            let (ifaces, out) := reloadOptionStep ex cb ifidx arg
            ({ ex with interfaces := ifaces }, out, .ok .finish)
          | none => (ex, (ex.interfaces.getD ifidx {}).printArgList, .ok .finish)
        | .capture _ => (ex, [], .ok (.capture ifidx))
        | _ => (ex, [], .error .unknownStep)

/-! ## Control-pipe runtime lifecycle (`src/control_pipe_runtime.rs`
lines 19–89).  The `state: Option<State>` field has three observable
shapes; `start` and `stop` are modelled as functions from that state to
what the call observably does. -/

/-- The runtime's `Option<State>` field: `Some(New{..})`, `Some(Started{..})`
or `None` (already taken). -/
inductive RtState where
  | new
  | started
  | taken
  deriving Repr, DecidableEq

/-- What a `start()` call does. -/
inductive StartBehavior where
  /-- Spawns both pumps and returns the `(Receiver, Sender)` queue pair. -/
  | returnsPipes
  /-- `panic!("start() called in wrong state")` — aborts the process. -/
  | panicsWrongState
  deriving Repr, DecidableEq

/-- What a `stop()` call does. -/
inductive StopBehavior where
  /-- Sends on both one-shot cancellation channels. -/
  | signalsBothPumps
  /-- `error!("stop() called in wrong state"); return` — an error log and a
  plain return; no panic, and `stop()` returns `()` so no error value. -/
  | logsErrorAndReturns
  deriving Repr, DecidableEq

/-- `ControlPipeRuntime::start` (`control_pipe_runtime.rs` lines 44–73):
`self.state.take()` matched against `Some(New)`; in the `New` state it moves
to `Started` and returns the queue endpoints, in every other state it
panics (the `take` has left `None` behind). -/
def rtStart : RtState → StartBehavior × RtState
  | .new => (.returnsPipes, .started)
  | _ => (.panicsWrongState, .taken)

/-- `ControlPipeRuntime::stop` (`control_pipe_runtime.rs` lines 79–89):
`self.state.take()` matched against `Some(Started)`; in the `Started` state
it signals both pumps, in every other state it logs an error and returns
normally. -/
def rtStop : RtState → StopBehavior
  | .started => .signalsBothPumps
  | _ => .logsErrorAndReturns

/-! ## Claims C5–C10 -/

/-- C5: step derivation follows the fixed precedence
interfaces > dlts > config > capture: `extcap-interfaces` wins over every
other step flag; `capture` with neither or only partially supplied control
pipes derives `Capture{ctrl_pipe:false}`, with both supplied
`Capture{ctrl_pipe:true}`. -/
theorem C5_step_precedence (m : ParsedFlags) :
    (m.extcapInterfaces = true → deriveStep m = .queryIfaces) ∧
    (m.extcapInterfaces = false → m.extcapDlts = true → deriveStep m = .queryDlts) ∧
    (m.extcapInterfaces = false → m.extcapDlts = false → m.extcapConfig = false →
      m.capture = true → m.extcapControlIn = none → m.extcapControlOut = none →
      deriveStep m = .capture false) ∧
    (∀ a b, m.extcapInterfaces = false → m.extcapDlts = false → m.extcapConfig = false →
      m.capture = true → m.extcapControlIn = some a → m.extcapControlOut = some b →
      deriveStep m = .capture true) := by
  refine ⟨?_, ?_, ?_, ?_⟩ <;> intros <;> simp_all [deriveStep]

/-- Witness for C5 at concrete flag sets: `extcap-interfaces` beats `dlts`
and `capture`; plain capture has no control pipe; capture with both control
flags has one. -/
theorem C5_step_precedence_witness :
    deriveStep { extcapInterfaces := true, extcapDlts := true, capture := true } =
      .queryIfaces ∧
    deriveStep { capture := true, extcapInterface := some "x" } = .capture false ∧
    deriveStep
      { capture := true
        extcapInterface := some "x"
        extcapControlIn := some "a"
        extcapControlOut := some "b" } = .capture true :=
  ⟨(C5_step_precedence _).1 rfl,
   (C5_step_precedence _).2.2.1 rfl rfl rfl rfl rfl rfl,
   (C5_step_precedence _).2.2.2 "a" "b" rfl rfl rfl rfl rfl rfl⟩

/-- C6: with `extcap-dlts` set and no `extcap-interface`, `run_till_capture`
fails with `MissingInterface`; with `extcap-interface` naming an unknown
interface it fails with `InvalidInterface`; both failures produce no
descriptor output and leave the state unchanged. -/
theorem C6_interface_errors (ex : Extcap) (cb : IFace → IfArg → Option (List IfArgVal))
    (m : ParsedFlags) :
    (m.extcapInterfaces = false → m.extcapDlts = true → m.extcapInterface = none →
      runTillCapture ex cb m = (ex, [], .error .missingInterface)) ∧
    (∀ nm, m.extcapInterfaces = false → m.extcapDlts = true →
      m.extcapInterface = some nm → ex.getIfIdx nm = none →
      runTillCapture ex cb m = (ex, [], .error (.invalidInterface nm))) := by
  constructor
  · intro h1 h2 h3
    simp [runTillCapture, deriveStep, h1, h2, h3]
  · intro nm h1 h2 h3 h4
    simp [runTillCapture, deriveStep, h1, h2, h3, h4]

/-- Witness for C6 on a registry with no matching interface. -/
theorem C6_interface_errors_witness :
    runTillCapture (Extcap.new "w6") (fun _ _ => none) { extcapDlts := true } =
      (Extcap.new "w6", [], .error .missingInterface) ∧
    runTillCapture (Extcap.new "w6") (fun _ _ => none)
        { extcapDlts := true, extcapInterface := some "bogus" } =
      (Extcap.new "w6", [], .error (.invalidInterface "bogus")) :=
  ⟨(C6_interface_errors (Extcap.new "w6") _ _).1 rfl rfl rfl,
   (C6_interface_errors (Extcap.new "w6") _ _).2 "bogus" rfl rfl rfl rfl⟩

/-- C7 counterexample: adding the argument "port" twice to the same
interface is not idempotent — `IFace::add_arg` has no duplicate-name check,
so the interface stores two entries (ordinals 0 and 1) and enumerating its
configuration renders two `arg` descriptor lines, not one. -/
theorem C7_counterexample :
    (((IFace.new "ifc0").addArg (IfArg.newString "port")).addArg
        (IfArg.newString "port")).printArgList.length = 2 ∧
    (((IFace.new "ifc0").addArg (IfArg.newString "port")).addArg
        (IfArg.newString "port")).args.map IfArg.number = [0, 1] := by
  constructor <;> rfl

/-- C7 (amended): registering "port" twice on one interface declares exactly
one `--port` CLI flag (`config_arg` is idempotent by name), but the
interface keeps both argument entries, with ordinals 0 and 1, and its
configuration enumeration renders two `arg` descriptor lines. -/
theorem C7_amended :
    ((Extcap.new "x").addInterface (((IFace.new "ifc0").addArg
        (IfArg.newString "port")).addArg (IfArg.newString "port"))).appExtraFlags.count
      "port" = 1 ∧
    (((IFace.new "ifc0").addArg (IfArg.newString "port")).addArg
        (IfArg.newString "port")).args.map IfArg.name = ["port", "port"] ∧
    (((IFace.new "ifc0").addArg (IfArg.newString "port")).addArg
        (IfArg.newString "port")).args.map IfArg.number = [0, 1] ∧
    (((IFace.new "ifc0").addArg (IfArg.newString "port")).addArg
        (IfArg.newString "port")).printArgList.length = 2 := by
  refine ⟨?_, ?_, ?_, ?_⟩ <;> rfl

/-- C8: the reload step — an argument absent from the selected interface is
a logged no-op with no output; a present argument goes through the caller's
callback: `none` leaves the values unchanged, a replacement list is spliced
in with every value stamped with the argument's ordinal; in either outcome
exactly that one argument's descriptor lines are printed. -/
theorem C8_reload_flow (ex : Extcap) (cb : IFace → IfArg → Option (List IfArgVal))
    (ifidx : Nat) (nm : String) (ifc : IFace)
    (hifc : ex.interfaces.getD ifidx {} = ifc) (hif : ifidx < ex.interfaces.length) :
    (ifc.getArgIdx nm = none → reloadOptionStep ex cb ifidx nm = (ex.interfaces, [])) ∧
    (∀ aidx a, ifc.getArgIdx nm = some aidx → ifc.args.getD aidx {} = a →
      (cb ifc a = none →
        reloadOptionStep ex cb ifidx nm = (ex.interfaces, a.printArg)) ∧
      (∀ nvals, cb ifc a = some nvals →
        reloadOptionStep ex cb ifidx nm =
          (ex.interfaces.set ifidx
            { ifc with args := ifc.args.set aidx (
                { a with vals := nvals.map (fun (v : IfArgVal) => { v with arg := a.number }) }) },
           ({ a with
              vals := nvals.map (fun (v : IfArgVal) => { v with arg := a.number }) }).printArg))) := by
  constructor
  · intro h
    simp only [reloadOptionStep, hifc, h]
  · intro aidx a hidx ha
    have haidx : aidx < ifc.args.length :=
      (List.findIdx?_eq_some_iff_findIdx_eq.mp hidx).1
    constructor
    · intro hcb
      simp only [reloadOptionStep, hifc, hidx, ha, hcb]
    · intro nvals hcb
      have hstamp : a.reloadOption nvals =
          { a with vals := nvals.map (fun (v : IfArgVal) => { v with arg := a.number }) } := by
        simp only [IfArg.reloadOption, IfArgVal.setArg]
      have hset : (ex.interfaces.set ifidx
          { ifc with args := ifc.args.set aidx (a.reloadOption nvals) }).getD ifidx {} =
          { ifc with args := ifc.args.set aidx (a.reloadOption nvals) } := by
        simp [List.getD_eq_getElem?_getD, List.getElem?_set_self hif]
      have hget : (ifc.args.set aidx (a.reloadOption nvals)).getD aidx {} =
          a.reloadOption nvals := by
        simp [List.getD_eq_getElem?_getD, List.getElem?_set_self haidx]
      simp only [reloadOptionStep, hifc, hidx, ha, hcb, hset, hget]
      rw [hstamp]

/-- Witness state for C8: one interface carrying one argument "port". -/
def exC8 : Extcap :=
  (Extcap.new "w8").addInterface ((IFace.new "if8").addArg (IfArg.newString "port"))

/-- The single interface of `exC8`. -/
def ifcC8 : IFace := (IFace.new "if8").addArg (IfArg.newString "port")

/-- The single argument of `ifcC8`, ordinal 0. -/
def argC8 : IfArg := (IfArg.newString "port").setNumber 0

/-- Witness for C8: reloading an absent argument emits nothing; a `none`
callback reprints the unchanged argument; a replacement list is stamped with
ordinal 0 and exactly that argument is printed. -/
theorem C8_reload_flow_witness :
    reloadOptionStep exC8 (fun _ _ => none) 0 "nope" = (exC8.interfaces, []) ∧
    reloadOptionStep exC8 (fun _ _ => none) 0 "port" = (exC8.interfaces, argC8.printArg) ∧
    reloadOptionStep exC8 (fun _ _ => some [IfArgVal.new "v1"]) 0 "port" =
      (exC8.interfaces.set 0
        { ifcC8 with args := ifcC8.args.set 0 (
            { argC8 with
              vals := [IfArgVal.new "v1"].map
                (fun (v : IfArgVal) => { v with arg := argC8.number }) }) },
       ({ argC8 with
          vals := [IfArgVal.new "v1"].map
            (fun (v : IfArgVal) => { v with arg := argC8.number }) }).printArg) :=
  ⟨(C8_reload_flow exC8 (fun _ _ => none) 0 "nope" ifcC8 (by decide) (by decide)).1
     (by decide),
   ((C8_reload_flow exC8 (fun _ _ => none) 0 "port" ifcC8 (by decide) (by decide)).2
     0 argC8 (by decide) (by decide)).1 rfl,
   (((C8_reload_flow exC8 (fun _ _ => some [IfArgVal.new "v1"]) 0 "port" ifcC8
       (by decide) (by decide)).2 0 argC8 (by decide) (by decide)).2
     [IfArgVal.new "v1"] rfl)⟩

/-- C9 counterexample: calling `stop()` in the `New` state (before any
`start()`) neither aborts the process nor surfaces an error value — the
source logs "stop() called in wrong state" and plainly returns `()`, so the
call is ignored apart from the log line. -/
theorem C9_counterexample : rtStop RtState.new = .logsErrorAndReturns := rfl

/-- C9 (amended): calling `start()` when the runtime is not in the `New`
state — in particular a second `start()` after the first moved it to
`Started` — panics and aborts the process; calling `stop()` before
`start()` only logs an error and returns normally, with no abort and no
error value; `stop()` in the `Started` state signals both pumps. -/
theorem C9_lifecycle :
    (rtStart RtState.new).2 = RtState.started ∧
    (rtStart RtState.started).1 = .panicsWrongState ∧
    (rtStart RtState.taken).1 = .panicsWrongState ∧
    rtStop RtState.new = .logsErrorAndReturns ∧
    rtStop RtState.started = .signalsBothPumps :=
  ⟨rfl, rfl, rfl, rfl, rfl⟩

/-- C10: rendering fallbacks — an argument with no display string renders as
if its display were its name; an argument value or control value with no
display string renders as if its display were the value itself; an
interface with no DLT name renders its dlt line as if the DLT name were the
interface name.  The mandatory fields are therefore always populated. -/
theorem C10_display_fallbacks (a : IfArg) (v : IfArgVal) (cv : ControlVal) (ifc : IFace) :
    (a.display = none → a.printArg = ({ a with display := some a.name }).printArg) ∧
    (v.display = none → v.printValue = ({ v with display := some v.value }).printValue) ∧
    (cv.display = none →
      cv.printValue = ({ cv with display := some cv.value }).printValue) ∧
    (ifc.dltname = none →
      ifc.printDltList = ({ ifc with dltname := some ifc.interface }).printDltList) := by
  refine ⟨?_, ?_, ?_, ?_⟩ <;> intro h <;>
    simp [IfArg.printArg, IfArgVal.printValue, ControlVal.printValue, IFace.printDltList, h]

/-- Witness for C10 at concrete unset-display values. -/
theorem C10_display_fallbacks_witness :
    (IfArg.newString "nm").printArg =
      ({ IfArg.newString "nm" with
          display := some (IfArg.newString "nm").name }).printArg ∧
    (IfArgVal.new "vv").printValue =
      ({ IfArgVal.new "vv" with
          display := some (IfArgVal.new "vv").value }).printValue ∧
    ControlVal.printValue { value := "cc" } =
      ControlVal.printValue
        { { value := "cc" : ControlVal } with
            display := some ({ value := "cc" : ControlVal }).value } ∧
    (IFace.new "e").printDltList =
      ({ IFace.new "e" with
          dltname := some (IFace.new "e").interface }).printDltList :=
  ⟨(C10_display_fallbacks (IfArg.newString "nm") (IfArgVal.new "vv")
      { value := "cc" } (IFace.new "e")).1 rfl,
   (C10_display_fallbacks (IfArg.newString "nm") (IfArgVal.new "vv")
      { value := "cc" } (IFace.new "e")).2.1 rfl,
   (C10_display_fallbacks (IfArg.newString "nm") (IfArgVal.new "vv")
      { value := "cc" } (IFace.new "e")).2.2.1 rfl,
   (C10_display_fallbacks (IfArg.newString "nm") (IfArgVal.new "vv")
      { value := "cc" } (IFace.new "e")).2.2.2 rfl⟩

end ExtcapRs
